import Mathlib

/-!
Verification of the Taxi Park Admin API (`api.py`) against its specification.

The store (two SQLite tables, `cars` and `drivers`) is modelled as a pair of
lists of records together with the auto-increment counters.  Each HTTP handler
is translated into a pure function over this state: reads return values,
writes return `Except Err (result × DB)` wrapped by `with_db`, which mirrors
the `get_db` context manager (commit the new state on success, roll back to
the incoming state on any raised error).  SQL `UNIQUE` violations are modelled
by the `insert_*` functions returning `SqlErr.integrity` with the violated
column, mirroring `sqlite3.IntegrityError` and the handlers' `"phone" in
str(e)` dispatch.  Floats (`rating`, `distance`) are modelled as rationals;
none of the verified behaviour depends on rounding.
-/

/-- Status column of the `cars` table: CHECK(status IN (FREE, BUSY, REPAIR)). -/
inductive CarStatus where
  | FREE
  | BUSY
  | REPAIR
deriving DecidableEq, Repr

/-- A row of the `cars` table. -/
structure Car where
  id : Int
  status : CarStatus
  license_plate : String
  brand : String
  color : String
  distance : Rat
  created_at : Nat
deriving DecidableEq, Repr

/-- A row of the `drivers` table (`is_active` stored as 0/1 in SQLite,
modelled as `Bool`; `car_id` is the nullable vehicle reference). -/
structure Driver where
  id : Int
  full_name : String
  phone : String
  rating : Rat
  car_id : Option Int
  is_active : Bool
  created_at : Nat
deriving DecidableEq, Repr

/-- The persistent store: the two tables (rows in insertion order), the
AUTOINCREMENT counters, and the clock used for `created_at`. -/
structure DB where
  cars : List Car
  drivers : List Driver
  next_car_id : Int
  next_driver_id : Int
  now : Nat
deriving DecidableEq, Repr

/-- Errors surfaced to the client: FastAPI/pydantic validation failures
(HTTP 422) and explicit `HTTPException(code, msg)`. -/
inductive Err where
  | validation (msg : String)
  | http (code : Int) (msg : String)
deriving DecidableEq, Repr

/-- Column blamed by a `sqlite3.IntegrityError` (`UNIQUE` constraints on
`cars.license_plate`, `drivers.phone`, `drivers.car_id`). -/
inductive SqlCol where
  | plate
  | phone
  | carId
deriving DecidableEq, Repr

/-- A store-level error, carrying the violated column (the handlers inspect
`str(e)` for the substring "phone"; the column tag models that). -/
inductive SqlErr where
  | integrity (col : SqlCol)
deriving DecidableEq, Repr

/-- The `get_db` context manager: run the handler body on the store; commit
the mutated store on success, roll back (keep the incoming store) on error. -/
def with_db (db : DB) (body : DB → Except Err (α × DB)) : Except Err α × DB :=
  match body db with
  | .ok (a, db2) => (.ok a, db2)
  | .error e => (.error e, db)

/-- Truthiness of `Optional[int]` in Python: `None` and `0` are falsy. -/
def intOptTruthy : Option Int → Bool
  | none => false
  | some n => decide (n ≠ 0)

/-- Request body of `POST /cars` (`CarCreate`), already pydantic-validated. -/
structure CarCreate where
  license_plate : String
  brand : String
  color : String
  distance : Rat
  status : CarStatus
deriving DecidableEq, Repr

/-- Request body of `PATCH /cars/{id}` (`CarUpdate`): every field optional. -/
structure CarUpdate where
  status : Option CarStatus
  color : Option String
  distance : Option Rat
deriving DecidableEq, Repr

/-- Request body of `POST /drivers` (`DriverCreate`), already validated. -/
structure DriverCreate where
  full_name : String
  phone : String
  rating : Rat
  car_id : Option Int
deriving DecidableEq, Repr

/-- Request body of `PATCH /drivers/{id}` (`DriverUpdate`). -/
structure DriverUpdate where
  full_name : Option String
  phone : Option String
  rating : Option Rat
  car_id : Option Int
  is_active : Option Bool
deriving DecidableEq, Repr

/-- Raw payload of `POST /drivers` before pydantic validation: `rating`
absent means the default 5.0. -/
structure DriverCreatePayload where
  full_name : String
  phone : String
  rating : Option Rat
  car_id : Option Int
deriving DecidableEq, Repr

/-- Pydantic validation of `DriverCreate`: `rating: float = Field(5.0, ge=0,
le=5)` — an out-of-range value is rejected with a 422, never altered. -/
def validate_driver_create (p : DriverCreatePayload) : Except Err DriverCreate :=
  let r := p.rating.getD 5
  if 0 ≤ r ∧ r ≤ 5 then
    .ok { full_name := p.full_name, phone := p.phone, rating := r, car_id := p.car_id }
  else
    .error (.validation "rating: input should be in range [0, 5]")

/-- Pydantic validation of `DriverUpdate`: `rating: Optional[float] =
Field(None, ge=0, le=5)`. -/
def validate_driver_update (p : DriverUpdate) : Except Err DriverUpdate :=
  match p.rating with
  | none => .ok p
  | some r =>
    if 0 ≤ r ∧ r ≤ 5 then .ok p
    else .error (.validation "rating: input should be in range [0, 5]")

/-- SQL `INSERT INTO cars ...`: fails with an integrity error when the UNIQUE
constraint on `license_plate` is violated, else appends the new row. -/
def insert_car (db : DB) (req : CarCreate) : Except SqlErr (Car × DB) :=
  if db.cars.any (fun c => decide (c.license_plate = req.license_plate)) then
    .error (.integrity .plate)
  else
    let c : Car :=
      { id := db.next_car_id, status := req.status, license_plate := req.license_plate,
        brand := req.brand, color := req.color, distance := req.distance,
        created_at := db.now }
    .ok (c, { db with cars := db.cars ++ [c], next_car_id := db.next_car_id + 1 })

/-- Handler body of `POST /cars` (`create_car`): try the insert, translating
`sqlite3.IntegrityError` to HTTP 400. -/
def create_car_body (db : DB) (req : CarCreate) : Except Err (Car × DB) :=
  match insert_car db req with
  | .ok x => .ok x
  | .error (.integrity _) =>
    .error (.http 400 "Автомобиль с таким госномером уже существует")

/-- `POST /cars` under `get_db` (commit / rollback). -/
def create_car (db : DB) (req : CarCreate) : Except Err Car × DB :=
  with_db db (fun s => create_car_body s req)

/-- Apply the supplied fields of a `CarUpdate` to a row (the generated
`UPDATE cars SET ...` statement touches exactly the supplied columns). -/
def apply_car_update (u : CarUpdate) (c : Car) : Car :=
  let c1 := match u.status with | some s => { c with status := s } | none => c
  let c2 := match u.color with | some col => { c1 with color := col } | none => c1
  match u.distance with | some d => { c2 with distance := d } | none => c2

/-- Handler body of `PATCH /cars/{car_id}` (`update_car`): 404 when the row
is absent; with no supplied fields, re-select and return the current row;
otherwise update the supplied columns and re-select. -/
def update_car_body (db : DB) (car_id : Int) (u : CarUpdate) : Except Err (Car × DB) :=
  match db.cars.find? (fun c => decide (c.id = car_id)) with
  | none => .error (.http 404 "Автомобиль не найден")
  | some c =>
    if u.status = none ∧ u.color = none ∧ u.distance = none then
      .ok (c, db)
    else
      let db2 : DB :=
        { db with cars := db.cars.map (fun x => if x.id = car_id then apply_car_update u x else x) }
      match db2.cars.find? (fun x => decide (x.id = car_id)) with
      | none => .error (.http 500 "internal")
      | some c2 => .ok (c2, db2)

/-- `PATCH /cars/{car_id}` under `get_db`.  The route declares `car_id: int`
with no `ge=1` bound, so no path validation happens here. -/
def update_car (db : DB) (car_id : Int) (u : CarUpdate) : Except Err Car × DB :=
  with_db db (fun s => update_car_body s car_id u)

/-- `GET /cars/in-repair` (`get_cars_in_repair`): all rows with status
REPAIR, in table order, no pagination, no driver enrichment. -/
def get_cars_in_repair (db : DB) : List Car :=
  db.cars.filter (fun c => decide (c.status = CarStatus.REPAIR))

/-- The WHERE clause built by `get_cars`: conjunction of the supplied
filters (`if status:` is truthy for every member of the enum, so it behaves
as a `None` test). -/
def carWhere (status : Option CarStatus) (min_d max_d : Option Rat) (c : Car) : Bool :=
  (match status with | some s => decide (c.status = s) | none => true) &&
  (match min_d with | some m => decide (m ≤ c.distance) | none => true) &&
  (match max_d with | some m => decide (c.distance ≤ m) | none => true)

/-- Row order `ORDER BY c.id`. -/
def carLe (a b : Car) : Prop := a.id ≤ b.id

instance : DecidableRel carLe := fun a b => inferInstanceAs (Decidable (a.id ≤ b.id))

/-- Row order `ORDER BY d.id`. -/
def driverLe (a b : Driver) : Prop := a.id ≤ b.id

instance : DecidableRel driverLe := fun a b => inferInstanceAs (Decidable (a.id ≤ b.id))

/-- `GET /cars` (`get_cars`): filter conjunctively, `ORDER BY c.id LIMIT ?
OFFSET ?`, and enrich each car with its assigned driver via the LEFT JOIN on
`d.car_id = c.id` (at most one match thanks to UNIQUE(`car_id`)). -/
def get_cars (db : DB) (status : Option CarStatus) (min_d max_d : Option Rat)
    (limit offset : Nat) : List (Car × Option Driver) :=
  let rows := (db.cars.filter (carWhere status min_d max_d)).insertionSort carLe
  ((rows.drop offset).take limit).map
    (fun c => (c, db.drivers.find? (fun d => decide (d.car_id = some c.id))))

/-- The WHERE clause built by `get_drivers`: optional `rating >= ?` filter
and, when `only_active` is truthy, `is_active = 1`. -/
def driverWhere (min_rating : Option Rat) (only_active : Bool) (d : Driver) : Bool :=
  (match min_rating with | some r => decide (r ≤ d.rating) | none => true) &&
  (if only_active then d.is_active else true)

/-- `GET /drivers` (`get_drivers`): conjunctive filter, `ORDER BY d.id LIMIT
? OFFSET ?`, each driver enriched with its car via LEFT JOIN on
`d.car_id = c.id`. -/
def get_drivers (db : DB) (min_rating : Option Rat) (only_active : Bool)
    (limit offset : Nat) : List (Driver × Option Car) :=
  let rows := (db.drivers.filter (driverWhere min_rating only_active)).insertionSort driverLe
  ((rows.drop offset).take limit).map
    (fun d => (d, match d.car_id with
                  | some c => db.cars.find? (fun car => decide (car.id = c))
                  | none => none))

/-- Handler body of `GET /cars/{car_id}` (`get_car`): 404 when absent, else
the row plus its assigned driver (nullable). -/
def get_car_body (db : DB) (car_id : Int) : Except Err (Car × Option Driver) :=
  match db.cars.find? (fun c => decide (c.id = car_id)) with
  | none => .error (.http 404 "Автомобиль не найден")
  | some c => .ok (c, db.drivers.find? (fun d => decide (d.car_id = some c.id)))

/-- `GET /cars/{car_id}` including the FastAPI path validation
`Path(..., ge=1)`: a non-positive id is a 422 before the store is touched. -/
def get_car_ep (db : DB) (car_id : Int) : Except Err (Car × Option Driver) :=
  if car_id < 1 then .error (.validation "car_id: input should be >= 1")
  else get_car_body db car_id

/-- Handler body of `GET /drivers/{driver_id}` (`get_driver`). -/
def get_driver_body (db : DB) (driver_id : Int) : Except Err (Driver × Option Car) :=
  match db.drivers.find? (fun d => decide (d.id = driver_id)) with
  | none => .error (.http 404 "Водитель не найден")
  | some d =>
    .ok (d, match d.car_id with
            | some c => db.cars.find? (fun car => decide (car.id = c))
            | none => none)

/-- `GET /drivers/{driver_id}` including `Path(..., ge=1)` validation. -/
def get_driver_ep (db : DB) (driver_id : Int) : Except Err (Driver × Option Car) :=
  if driver_id < 1 then .error (.validation "driver_id: input should be >= 1")
  else get_driver_body db driver_id

/-- SQL `INSERT INTO drivers ...`: UNIQUE(`phone`) and UNIQUE(`car_id`) can
fire (SQLite reports the first violated constraint; the model checks `phone`
first — the claims never exercise both at once).  Foreign keys are not
enforced (the source never issues `PRAGMA foreign_keys=ON`). -/
def insert_driver (db : DB) (req : DriverCreate) : Except SqlErr (Driver × DB) :=
  if db.drivers.any (fun d => decide (d.phone = req.phone)) then
    .error (.integrity .phone)
  else if (match req.car_id with
           | some c => db.drivers.any (fun d => decide (d.car_id = some c))
           | none => false) then
    .error (.integrity .carId)
  else
    let d : Driver :=
      { id := db.next_driver_id, full_name := req.full_name, phone := req.phone,
        rating := req.rating, car_id := req.car_id, is_active := true,
        created_at := db.now }
    .ok (d, { db with drivers := db.drivers ++ [d], next_driver_id := db.next_driver_id + 1 })

/-- The `try ... except sqlite3.IntegrityError` block of `create_driver`:
a message naming the phone when `"phone" in str(e)`, generic otherwise. -/
def insert_driver_catch (db : DB) (req : DriverCreate) : Except Err (Driver × DB) :=
  match insert_driver db req with
  | .ok x => .ok x
  | .error (.integrity col) =>
    if col = SqlCol.phone then
      .error (.http 400 "Водитель с таким номером телефона уже существует")
    else
      .error (.http 400 "Ошибка целостности данных")

/-- Handler body of `POST /drivers` (`create_driver`).  The pre-checks run
under `if driver.car_id:` — Python truthiness, so they are skipped both for
`None` and for the literal `0`. -/
def create_driver_body (db : DB) (req : DriverCreate) : Except Err (Driver × DB) :=
  match req.car_id with
  | some c =>
    if c ≠ 0 then
      if ¬ (db.cars.any (fun car => decide (car.id = c))) then
        .error (.http 400 "Автомобиль с таким id не существует")
      else if db.drivers.any (fun d => decide (d.car_id = some c)) then
        .error (.http 400 "Автомобиль уже назначен другому водителю")
      else
        insert_driver_catch db req
    else
      insert_driver_catch db req
  | none => insert_driver_catch db req

/-- `POST /drivers` under `get_db`. -/
def create_driver (db : DB) (req : DriverCreate) : Except Err Driver × DB :=
  with_db db (fun s => create_driver_body s req)

/-- `POST /drivers` including pydantic validation of the raw payload. -/
def create_driver_ep (db : DB) (p : DriverCreatePayload) : Except Err Driver × DB :=
  match validate_driver_create p with
  | .error e => (.error e, db)
  | .ok req => create_driver db req

/-- Apply the supplied fields of a `DriverUpdate` to a row (the generated
`UPDATE drivers SET ...` touches exactly the supplied columns; note that a
supplied `car_id` is written as the integer itself). -/
def apply_driver_update (u : DriverUpdate) (d : Driver) : Driver :=
  let d1 := match u.full_name with | some v => { d with full_name := v } | none => d
  let d2 := match u.phone with | some v => { d1 with phone := v } | none => d1
  let d3 := match u.rating with | some v => { d2 with rating := v } | none => d2
  let d4 := match u.car_id with | some v => { d3 with car_id := some v } | none => d3
  match u.is_active with | some v => { d4 with is_active := v } | none => d4

/-- The `car_id` pre-check block of `update_driver`: when `car_id` is
supplied, the sentinel `0` is rewritten to `None` in the request object
("отвязать машину"); any other value must name an existing car not already
held by a different driver.  Returns the (possibly rewritten) request. -/
def driver_update_precheck (db : DB) (driver_id : Int) (u : DriverUpdate) :
    Except Err DriverUpdate :=
  match u.car_id with
  | none => .ok u
  | some c =>
    if c = 0 then
      .ok { u with car_id := none }
    else if ¬ (db.cars.any (fun car => decide (car.id = c))) then
      .error (.http 400 "Автомобиль не существует")
    else if db.drivers.any (fun d => decide (d.car_id = some c ∧ d.id ≠ driver_id)) then
      .error (.http 400 "Автомобиль уже назначен другому водителю")
    else
      .ok u

/-- Handler body of `PATCH /drivers/{driver_id}` (`update_driver`): 404 when
absent; run the `car_id` pre-check; with no fields left to set, return the
current row; otherwise UPDATE (catching the UNIQUE(`phone`) violation — the
`car_id` pre-check already rules out a `car_id` conflict) and re-select. -/
def update_driver_body (db : DB) (driver_id : Int) (u0 : DriverUpdate) :
    Except Err (Driver × DB) :=
  match db.drivers.find? (fun d => decide (d.id = driver_id)) with
  | none => .error (.http 404 "Водитель не найден")
  | some current =>
    match driver_update_precheck db driver_id u0 with
    | .error e => .error e
    | .ok u =>
      if u.full_name = none ∧ u.phone = none ∧ u.rating = none ∧
         u.car_id = none ∧ u.is_active = none then
        .ok (current, db)
      else if (match u.phone with
               | some p => db.drivers.any (fun d => decide (d.phone = p ∧ d.id ≠ driver_id))
               | none => false) then
        .error (.http 400 "Нарушение уникальности (возможно, телефон уже используется)")
      else
        let db2 : DB :=
          { db with drivers :=
              db.drivers.map (fun d => if d.id = driver_id then apply_driver_update u d else d) }
        match db2.drivers.find? (fun d => decide (d.id = driver_id)) with
        | none => .error (.http 500 "internal")
        | some d2 => .ok (d2, db2)

/-- `PATCH /drivers/{driver_id}` under `get_db`.  The route declares
`driver_id: int` with no `ge=1` bound: no path validation. -/
def update_driver (db : DB) (driver_id : Int) (u : DriverUpdate) :
    Except Err Driver × DB :=
  with_db db (fun s => update_driver_body s driver_id u)

/-- Recognizer for 422-style validation errors. -/
def isValidationErr : Except Err α → Bool
  | .error (.validation _) => true
  | _ => false

instance : IsTotal Driver driverLe := ⟨fun a b => Int.le_total a.id b.id⟩

instance : IsTrans Driver driverLe := ⟨fun _ _ _ h1 h2 => le_trans h1 h2⟩

instance : IsTotal Car carLe := ⟨fun a b => Int.le_total a.id b.id⟩

instance : IsTrans Car carLe := ⟨fun _ _ _ h1 h2 => le_trans h1 h2⟩

/-- Example store state: one FREE car. -/
def fixCar : Car :=
  { id := 1, status := .FREE, license_plate := "A123", brand := "Toyota",
    color := "white", distance := 5, created_at := 0 }

/-- Example driver holding car 1. -/
def fixDriverA : Driver :=
  { id := 1, full_name := "Ivanov", phone := "+7900", rating := 5,
    car_id := some 1, is_active := true, created_at := 0 }

/-- Example driver with no car assigned. -/
def fixDriverB : Driver :=
  { id := 2, full_name := "Petrov", phone := "+7901", rating := 4,
    car_id := none, is_active := true, created_at := 0 }

/-- Example store: one car, held by driver 1; driver 2 unassigned. -/
def fixDB : DB :=
  { cars := [fixCar], drivers := [fixDriverA, fixDriverB],
    next_car_id := 2, next_driver_id := 3, now := 1 }

/-- Example store where the holder of car 1 is inactive. -/
def fixDBInactive : DB :=
  { cars := [fixCar],
    drivers := [{ fixDriverA with is_active := false }, fixDriverB],
    next_car_id := 2, next_driver_id := 3, now := 1 }

/-- A car under repair with identifier `i` (used to populate large stores). -/
def repairCar (i : Nat) : Car :=
  { id := Int.ofNat i, status := .REPAIR, license_plate := "P" ++ toString i,
    brand := "B", color := "grey", distance := 1, created_at := 0 }

/-- A store holding 101 cars under repair (ids 1..101). -/
def bigRepairDB : DB :=
  { cars := (List.range 101).map (fun i => repairCar (i + 1)), drivers := [],
    next_car_id := 102, next_driver_id := 1, now := 0 }

/-- A store holding a single car under repair. -/
def oneRepairDB : DB :=
  { cars := [repairCar 1], drivers := [],
    next_car_id := 2, next_driver_id := 1, now := 0 }

/-- The empty driver patch (all fields absent). -/
def emptyDriverUpdate : DriverUpdate :=
  { full_name := none, phone := none, rating := none, car_id := none, is_active := none }

/-- The empty car patch (all fields absent). -/
def emptyCarUpdate : CarUpdate :=
  { status := none, color := none, distance := none }

/-- Claim C1: the spec says a driver partial update supplying the sentinel
vehicle reference 0 succeeds and leaves the reference null.  The code rewrites
the request's `car_id` to `None` (intending "отвязать машину") but then builds
the UPDATE field list with `if driver_update.car_id is not None`, so the
column is never written: patching driver 1 (holding vehicle 1) with
`car_id = 0` succeeds yet returns and stores the reference `some 1`, not
null.  This theorem evaluates the code at that failing input. -/
theorem C1_sentinel_unassign_is_noop :
    update_driver fixDB 1
        { full_name := none, phone := none, rating := none,
          car_id := some 0, is_active := none }
      = (.ok fixDriverA, fixDB) ∧ fixDriverA.car_id = some 1 := by
  constructor
  · rfl
  · rfl

/-- Claim C6: a partial update supplying no fields succeeds, returns the
current record with every field unchanged, and leaves the store untouched —
for vehicles and for drivers alike. -/
theorem C6_empty_patch_is_noop (db : DB) (i j : Int) (c : Car) (d : Driver)
    (hc : db.cars.find? (fun x => decide (x.id = i)) = some c)
    (hd : db.drivers.find? (fun x => decide (x.id = j)) = some d) :
    update_car db i emptyCarUpdate = (.ok c, db) ∧
    update_driver db j emptyDriverUpdate = (.ok d, db) := by
  constructor
  · simp [update_car, with_db, update_car_body, hc, emptyCarUpdate]
  · simp [update_driver, with_db, update_driver_body, hd,
          driver_update_precheck, emptyDriverUpdate]

/-- Witness for C6 on the example store. -/
theorem C6_empty_patch_is_noop_witness :
    update_car fixDB 1 emptyCarUpdate = (.ok fixCar, fixDB) ∧
    update_driver fixDB 2 emptyDriverUpdate = (.ok fixDriverB, fixDB) :=
  C6_empty_patch_is_noop fixDB 1 2 fixCar fixDriverB (by rfl) (by rfl)

/-- Claim C3: creating a vehicle whose license plate already exists fails
with the conflict error, and the vehicle table afterwards is exactly the old
one (the transaction rolls back, same rows, same row count). -/
theorem C3_duplicate_plate_conflict (db : DB) (req : CarCreate)
    (h : ∃ c ∈ db.cars, c.license_plate = req.license_plate) :
    create_car db req
        = (.error (.http 400 "Автомобиль с таким госномером уже существует"), db) ∧
    (create_car db req).2.cars = db.cars := by
  have hany : db.cars.any (fun c => decide (c.license_plate = req.license_plate)) = true := by
    rw [List.any_eq_true]
    obtain ⟨c, hm, he⟩ := h
    exact ⟨c, hm, by simpa using he⟩
  constructor
  · simp [create_car, with_db, create_car_body, insert_car, hany]
  · simp [create_car, with_db, create_car_body, insert_car, hany]

/-- Witness for C3 on the example store. -/
theorem C3_duplicate_plate_conflict_witness :
    create_car fixDB
        { license_plate := "A123", brand := "Kia", color := "red",
          distance := 2, status := .FREE }
      = (.error (.http 400 "Автомобиль с таким госномером уже существует"), fixDB) ∧
    (create_car fixDB
        { license_plate := "A123", brand := "Kia", color := "red",
          distance := 2, status := .FREE }).2.cars = fixDB.cars :=
  C3_duplicate_plate_conflict fixDB _ ⟨fixCar, by simp [fixDB], rfl⟩

/-- Helper: when some driver row already holds vehicle `v`, both assignment
paths — driver creation referencing `v` and a partial update of a different
driver to `v` — stop at the availability pre-check with the conflict error,
leaving the store (hence the holder's row) untouched. -/
theorem assign_conflict_blocks (db : DB) (v : Int) (A : Driver)
    (hA : A ∈ db.drivers) (hAv : A.car_id = some v) (hv : v ≠ 0)
    (hcar : ∃ c ∈ db.cars, c.id = v)
    (req : DriverCreate) (hreq : req.car_id = some v)
    (bid : Int) (hne : bid ≠ A.id)
    (hB : ∃ B ∈ db.drivers, B.id = bid)
    (u : DriverUpdate) (hu : u.car_id = some v) :
    create_driver db req
        = (.error (.http 400 "Автомобиль уже назначен другому водителю"), db) ∧
    update_driver db bid u
        = (.error (.http 400 "Автомобиль уже назначен другому водителю"), db) := by
  have hcarAny : db.cars.any (fun car => decide (car.id = v)) = true := by
    rw [List.any_eq_true]
    obtain ⟨c, hm, he⟩ := hcar
    exact ⟨c, hm, by simpa using he⟩
  have hheld : db.drivers.any (fun d => decide (d.car_id = some v)) = true := by
    rw [List.any_eq_true]
    exact ⟨A, hA, by simpa using hAv⟩
  have hheldOther : ∃ x ∈ db.drivers, x.car_id = some v ∧ ¬ x.id = bid :=
    ⟨A, hA, hAv, fun h => hne (h ▸ rfl)⟩
  have hfind : (db.drivers.find? (fun d => decide (d.id = bid))).isSome := by
    rw [List.find?_isSome]
    obtain ⟨B, hm, he⟩ := hB
    exact ⟨B, hm, by simpa using he⟩
  constructor
  · simp [create_driver, with_db, create_driver_body, hreq, hv, hcarAny, hheld]
  · obtain ⟨B, hBfind⟩ := Option.isSome_iff_exists.mp hfind
    simp [update_driver, with_db, update_driver_body, hBfind,
          driver_update_precheck, hu, hv, hcarAny, hheldOther]

/-- Claim C2: at most one driver references a given vehicle: when driver `A`
already holds vehicle `v` (an existing, non-sentinel vehicle id), creating a
new driver referencing `v` and partially updating a different driver `bid` to
reference `v` both fail with the conflict error, and the store — in
particular `A`'s reference — is unchanged. -/
theorem C2_assignment_exclusive (db : DB) (v : Int) (A : Driver)
    (hA : A ∈ db.drivers) (hAv : A.car_id = some v) (hv : v ≠ 0)
    (hcar : ∃ c ∈ db.cars, c.id = v)
    (req : DriverCreate) (hreq : req.car_id = some v)
    (bid : Int) (hne : bid ≠ A.id)
    (hB : ∃ B ∈ db.drivers, B.id = bid)
    (u : DriverUpdate) (hu : u.car_id = some v) :
    create_driver db req
        = (.error (.http 400 "Автомобиль уже назначен другому водителю"), db) ∧
    update_driver db bid u
        = (.error (.http 400 "Автомобиль уже назначен другому водителю"), db) :=
  assign_conflict_blocks db v A hA hAv hv hcar req hreq bid hne hB u hu

/-- Witness for C2: on the example store, driver 1 holds car 1; creating a
driver referencing car 1 and patching driver 2 to car 1 both fail. -/
theorem C2_assignment_exclusive_witness :
    create_driver fixDB
        { full_name := "New", phone := "+7999", rating := 4, car_id := some 1 }
      = (.error (.http 400 "Автомобиль уже назначен другому водителю"), fixDB) ∧
    update_driver fixDB 2 { emptyDriverUpdate with car_id := some 1 }
      = (.error (.http 400 "Автомобиль уже назначен другому водителю"), fixDB) :=
  C2_assignment_exclusive fixDB 1 fixDriverA (by simp [fixDB]) rfl (by decide)
    ⟨fixCar, by simp [fixDB], rfl⟩ _ rfl 2 (by decide)
    ⟨fixDriverB, by simp [fixDB], rfl⟩ _ rfl

/-- Claim C10: the availability pre-check `SELECT id FROM drivers WHERE
car_id = ?` ignores `is_active`: a vehicle held by an *inactive* driver still
blocks any other create or partial update that would assign it, with exactly
the same conflict error as for an active holder. -/
theorem C10_inactive_holder_blocks (db : DB) (v : Int) (A : Driver)
    (hA : A ∈ db.drivers) (_hAinactive : A.is_active = false)
    (hAv : A.car_id = some v) (hv : v ≠ 0)
    (hcar : ∃ c ∈ db.cars, c.id = v)
    (req : DriverCreate) (hreq : req.car_id = some v)
    (bid : Int) (hne : bid ≠ A.id)
    (hB : ∃ B ∈ db.drivers, B.id = bid)
    (u : DriverUpdate) (hu : u.car_id = some v) :
    create_driver db req
        = (.error (.http 400 "Автомобиль уже назначен другому водителю"), db) ∧
    update_driver db bid u
        = (.error (.http 400 "Автомобиль уже назначен другому водителю"), db) :=
  assign_conflict_blocks db v A hA hAv hv hcar req hreq bid hne hB u hu

/-- Witness for C10 on the store whose holder of car 1 is inactive. -/
theorem C10_inactive_holder_blocks_witness :
    create_driver fixDBInactive
        { full_name := "New", phone := "+7999", rating := 4, car_id := some 1 }
      = (.error (.http 400 "Автомобиль уже назначен другому водителю"), fixDBInactive) ∧
    update_driver fixDBInactive 2 { emptyDriverUpdate with car_id := some 1 }
      = (.error (.http 400 "Автомобиль уже назначен другому водителю"), fixDBInactive) :=
  C10_inactive_holder_blocks fixDBInactive 1 { fixDriverA with is_active := false }
    (by simp [fixDBInactive]) rfl rfl (by decide)
    ⟨fixCar, by simp [fixDBInactive], rfl⟩ _ rfl 2 (by decide)
    ⟨fixDriverB, by simp [fixDBInactive], rfl⟩ _ rfl

/-- Claim C9: `create_driver` guards its pre-checks with `if driver.car_id:`
— Python truthiness — so a supplied reference of literally `0` skips both the
existence check and the availability check (the hypothesis that no car has id
0 shows the existence check would have failed had it run), and the inserted
row stores the literal reference 0, not null. -/
theorem C9_create_with_zero_reference (db : DB) (req : DriverCreate)
    (h0 : req.car_id = some 0)
    (_hnocar : ∀ c ∈ db.cars, c.id ≠ 0)
    (hphone : ∀ d ∈ db.drivers, d.phone ≠ req.phone)
    (hnoz : ∀ d ∈ db.drivers, d.car_id ≠ some 0) :
    create_driver db req =
      (.ok { id := db.next_driver_id, full_name := req.full_name,
             phone := req.phone, rating := req.rating, car_id := some 0,
             is_active := true, created_at := db.now },
       { db with
           drivers := db.drivers ++
             [{ id := db.next_driver_id, full_name := req.full_name,
                phone := req.phone, rating := req.rating, car_id := some 0,
                is_active := true, created_at := db.now }],
           next_driver_id := db.next_driver_id + 1 }) := by
  have hphoneAny : db.drivers.any (fun d => decide (d.phone = req.phone)) = false := by
    rw [List.any_eq_false]
    intro d hm
    simpa using hphone d hm
  have hzAny : db.drivers.any (fun d => decide (d.car_id = some 0)) = false := by
    rw [List.any_eq_false]
    intro d hm
    simpa using hnoz d hm
  simp [create_driver, with_db, create_driver_body, h0, insert_driver_catch,
        insert_driver, hphoneAny, hzAny]

/-- Witness for C9: on the example store (which has no car 0), creating a
driver with reference 0 succeeds and stores the literal 0. -/
theorem C9_create_with_zero_reference_witness :
    create_driver fixDB
        { full_name := "Zed", phone := "+7777", rating := 3, car_id := some 0 } =
      (.ok { id := 3, full_name := "Zed", phone := "+7777", rating := 3,
             car_id := some 0, is_active := true, created_at := 1 },
       { fixDB with
           drivers := fixDB.drivers ++
             [{ id := 3, full_name := "Zed", phone := "+7777", rating := 3,
                car_id := some 0, is_active := true, created_at := 1 }],
           next_driver_id := 4 }) :=
  C9_create_with_zero_reference fixDB _ rfl (by decide) (by decide) (by decide)

/-- Claim C4 as amended: the two detail routes declare `Path(..., ge=1)` and
reject a non-positive identifier with a 422 validation error before touching
the store; the two partial-update routes declare a bare `int` path parameter,
perform no such validation, and — since every stored identifier is positive —
report not-found (404) instead, the store unchanged. -/
theorem C4_path_validation (db : DB) (i : Int) (hi : i < 1)
    (u : CarUpdate) (v : DriverUpdate)
    (hcars : ∀ c ∈ db.cars, 1 ≤ c.id) (hdrivers : ∀ d ∈ db.drivers, 1 ≤ d.id) :
    get_car_ep db i = .error (.validation "car_id: input should be >= 1") ∧
    get_driver_ep db i = .error (.validation "driver_id: input should be >= 1") ∧
    update_car db i u = (.error (.http 404 "Автомобиль не найден"), db) ∧
    update_driver db i v = (.error (.http 404 "Водитель не найден"), db) := by
  have hcfind : db.cars.find? (fun c => decide (c.id = i)) = none := by
    rw [List.find?_eq_none]
    intro c hm
    simp only [decide_eq_true_eq]
    intro he
    exact absurd (he ▸ hcars c hm) (by omega)
  have hdfind : db.drivers.find? (fun d => decide (d.id = i)) = none := by
    rw [List.find?_eq_none]
    intro d hm
    simp only [decide_eq_true_eq]
    intro he
    exact absurd (he ▸ hdrivers d hm) (by omega)
  refine ⟨?_, ?_, ?_, ?_⟩
  · simp [get_car_ep, hi]
  · simp [get_driver_ep, hi]
  · simp [update_car, with_db, update_car_body, hcfind]
  · simp [update_driver, with_db, update_driver_body, hdfind]

/-- Witness for C4 at identifier 0 on the example store. -/
theorem C4_path_validation_witness :
    get_car_ep fixDB 0 = .error (.validation "car_id: input should be >= 1") ∧
    get_driver_ep fixDB 0 = .error (.validation "driver_id: input should be >= 1") ∧
    update_car fixDB 0 emptyCarUpdate
      = (.error (.http 404 "Автомобиль не найден"), fixDB) ∧
    update_driver fixDB 0 emptyDriverUpdate
      = (.error (.http 404 "Водитель не найден"), fixDB) :=
  C4_path_validation fixDB 0 (by decide) emptyCarUpdate emptyDriverUpdate
    (by decide) (by decide)

/-- Counterexample to claim C4 as stated: a partial update of vehicle 0 is
not rejected as a validation error (422) — it is processed against the store
and reported as not-found (404). -/
theorem C4_counterexample :
    update_car fixDB 0 emptyCarUpdate
        = (.error (.http 404 "Автомобиль не найден"), fixDB) ∧
    isValidationErr (update_car fixDB 0 emptyCarUpdate).1 = false := by
  constructor
  · rfl
  · rfl

/-- Counterexample to claim C5 as stated: a driver create request with
rating 6 is not clamped into [0,5] — pydantic rejects it with a 422
validation error, the operation does not proceed, and the store is
untouched.  (A clamped request would have succeeded with rating 5.) -/
theorem C5_counterexample :
    create_driver_ep fixDB
        { full_name := "Zed", phone := "+7777", rating := some 6, car_id := none }
      = (.error (.validation "rating: input should be in range [0, 5]"), fixDB) ∧
    validate_driver_update { emptyDriverUpdate with rating := some 6 }
      = .error (.validation "rating: input should be in range [0, 5]") := by
  constructor
  · rfl
  · rfl

/-- Claim C5 as amended: a driver create or partial-update request whose
rating lies outside [0,5] is rejected at validation time with a 422 and never
reaches the store (the create endpoint returns the store unchanged); an
in-range rating is passed through to the operation unchanged — no clamping
occurs in either direction. -/
theorem C5_rating_validated_not_clamped (db : DB) (p : DriverCreatePayload)
    (u : DriverUpdate) (r s : Rat) (hp : p.rating = some r) (hu : u.rating = some s) :
    (¬ (0 ≤ r ∧ r ≤ 5) →
      validate_driver_create p
          = .error (.validation "rating: input should be in range [0, 5]") ∧
      create_driver_ep db p
          = (.error (.validation "rating: input should be in range [0, 5]"), db)) ∧
    ((0 ≤ r ∧ r ≤ 5) →
      validate_driver_create p
          = .ok { full_name := p.full_name, phone := p.phone, rating := r,
                  car_id := p.car_id }) ∧
    (¬ (0 ≤ s ∧ s ≤ 5) →
      validate_driver_update u
          = .error (.validation "rating: input should be in range [0, 5]")) ∧
    ((0 ≤ s ∧ s ≤ 5) → validate_driver_update u = .ok u) := by
  refine ⟨fun hbad => ⟨?_, ?_⟩, fun hgood => ?_, fun hbad => ?_, fun hgood => ?_⟩
  · simp [validate_driver_create, hp, hbad]
  · simp [create_driver_ep, validate_driver_create, hp, hbad]
  · simp [validate_driver_create, hp, hgood]
  · simp [validate_driver_update, hu, hbad]
  · simp [validate_driver_update, hu, hgood]

/-- Witness for C5 (amended) at rating 6 on the example store. -/
theorem C5_rating_validated_not_clamped_witness :
    (¬ ((0:Rat) ≤ 6 ∧ (6:Rat) ≤ 5) →
      validate_driver_create
          { full_name := "Zed", phone := "+7777", rating := some 6, car_id := none }
          = .error (.validation "rating: input should be in range [0, 5]") ∧
      create_driver_ep fixDB
          { full_name := "Zed", phone := "+7777", rating := some 6, car_id := none }
          = (.error (.validation "rating: input should be in range [0, 5]"), fixDB)) ∧
    (((0:Rat) ≤ 6 ∧ (6:Rat) ≤ 5) →
      validate_driver_create
          { full_name := "Zed", phone := "+7777", rating := some 6, car_id := none }
          = .ok { full_name := "Zed", phone := "+7777", rating := 6, car_id := none }) ∧
    (¬ ((0:Rat) ≤ 6 ∧ (6:Rat) ≤ 5) →
      validate_driver_update { emptyDriverUpdate with rating := some 6 }
          = .error (.validation "rating: input should be in range [0, 5]")) ∧
    (((0:Rat) ≤ 6 ∧ (6:Rat) ≤ 5) →
      validate_driver_update { emptyDriverUpdate with rating := some 6 }
          = .ok { emptyDriverUpdate with rating := some 6 }) :=
  C5_rating_validated_not_clamped fixDB
    { full_name := "Zed", phone := "+7777", rating := some 6, car_id := none }
    { emptyDriverUpdate with rating := some 6 } 6 6 rfl rfl

/-- Counterexample to claim C7 as stated: on a store with 101 vehicles under
repair, the listing with `status=REPAIR` and default pagination (limit 100,
offset 0) truncates to 100 rows, so the vehicle with id 101 appears in the
dedicated in-repair result but not in the listing — the two sets differ. -/
theorem C7_counterexample :
    repairCar 101 ∈ get_cars_in_repair bigRepairDB ∧
    repairCar 101 ∉ (get_cars bigRepairDB (some .REPAIR) none none 100 0).map Prod.fst := by
  constructor
  · decide
  · decide

/-- Claim C7 as amended: whenever the store holds at most 100 vehicles with
status REPAIR (the default page size), the set of vehicles returned by the
listing with status filter REPAIR and default pagination equals the set
returned by the dedicated in-repair operation; with more, the listing
truncates to 100 while the in-repair operation returns them all. -/
theorem C7_repair_listing_agrees (db : DB)
    (h : (db.cars.filter (fun c => decide (c.status = CarStatus.REPAIR))).length ≤ 100) :
    ∀ c : Car, c ∈ (get_cars db (some .REPAIR) none none 100 0).map Prod.fst ↔
               c ∈ get_cars_in_repair db := by
  intro c
  have hfilter : db.cars.filter (carWhere (some .REPAIR) none none) =
      db.cars.filter (fun c => decide (c.status = CarStatus.REPAIR)) := by
    apply List.filter_congr
    intro x _
    simp [carWhere]
  have hlen : ((db.cars.filter (fun c => decide (c.status = CarStatus.REPAIR))).insertionSort
      carLe).length ≤ 100 := by
    rw [List.length_insertionSort]
    exact h
  have h1 : (get_cars db (some .REPAIR) none none 100 0).map Prod.fst =
      (db.cars.filter (fun c => decide (c.status = CarStatus.REPAIR))).insertionSort carLe := by
    simp [get_cars, hfilter, List.map_map, Function.comp_def, List.drop_zero,
          List.take_of_length_le hlen]
  rw [h1, get_cars_in_repair]
  exact List.mem_insertionSort carLe

/-- Witness for C7 (amended) on a store with a single repair car. -/
theorem C7_repair_listing_agrees_witness :
    repairCar 1 ∈ (get_cars oneRepairDB (some .REPAIR) none none 100 0).map Prod.fst ↔
    repairCar 1 ∈ get_cars_in_repair oneRepairDB :=
  C7_repair_listing_agrees oneRepairDB (by decide) (repairCar 1)

/-- Claim C8: the driver listing with a minimum rating `r` and the
active-only flag returns exactly the active drivers with rating ≥ r — the
conjunction of the two filters — ordered by ascending identifier, within the
limit/offset window. -/
theorem C8_driver_listing_filter (db : DB) (r : Rat) (limit offset : Nat) :
    (get_drivers db (some r) true limit offset).map Prod.fst =
      ((((db.drivers.filter (fun d => d.is_active && decide (r ≤ d.rating))).insertionSort
          driverLe).drop offset).take limit) ∧
    ((get_drivers db (some r) true limit offset).map Prod.fst).Pairwise
      (fun a b : Driver => a.id ≤ b.id) := by
  have hfilter : db.drivers.filter (driverWhere (some r) true) =
      db.drivers.filter (fun d => d.is_active && decide (r ≤ d.rating)) := by
    apply List.filter_congr
    intro d _
    simp [driverWhere, Bool.and_comm]
  have h1 : (get_drivers db (some r) true limit offset).map Prod.fst =
      ((((db.drivers.filter (fun d => d.is_active && decide (r ≤ d.rating))).insertionSort
          driverLe).drop offset).take limit) := by
    simp [get_drivers, hfilter, List.map_map, Function.comp_def]
  refine ⟨h1, ?_⟩
  rw [h1]
  have hsorted : List.Sorted driverLe
      ((db.drivers.filter (fun d => d.is_active && decide (r ≤ d.rating))).insertionSort
        driverLe) :=
    List.sorted_insertionSort driverLe _
  have hdrop := hsorted.sublist (List.drop_sublist offset _)
  have htake := hdrop.sublist (List.take_sublist limit _)
  exact htake.imp (fun h => h)
